import Mathlib

/-!
Verification of the protocol/reliability layer of `arduino-interface`
(src/index.js): the acknowledgment queue with sequence numbers, priorities
and timeouts, the checksum computation, and the text-mode wire framing.

The JavaScript source is shallowly embedded: the mutable fields of the
`Arduino` object that the claims touch become a record `ArduinoState`;
each method becomes a function from the state (plus its arguments) to a
new state together with the list of externally observable events it
produces (emitted events, invoked callbacks, calls to the serial
write-and-drain primitive, timers).  Node's `EventEmitter.emit` is
synchronous, so where the source emits `send-error` (whose only listener
re-invokes `_writeAndWaitForAcknowledgementHelper`) the model invokes the
pump function directly at that point.  Callbacks are identified by a
numeric id; invoking a callback is an event.  The `setTimeout` handle
`self.timeout` is modelled by a boolean `timeoutActive` (armed or not)
plus a `startTimer` event carrying the duration; the asynchronous
completions (write error, write success, timer expiry) are separate
transition functions taking the values the source closes over.
-/

/-- One externally observable action of the layer. -/
inductive Ev where
  /-- `self.emit('error', {...})`; the string is the `error`/`message` text of
  the emitted object. -/
  | errorEvent (description : String)
  /-- `self.emit('data', message)` with a binary (byte list) message. -/
  | dataEvent (message : List Nat)
  /-- `self.emit('data', message)` with a string message. -/
  | dataStr (message : String)
  /-- Invocation of a user callback, identified by id, with `none` for a call
  with no error and `some e` for a call with error `e`. -/
  | callback (cbId : Nat) (err : Option String)
  /-- A call to `self.writeAndDrain` with the given (pre-framing) payload:
  one write attempt on the wire. -/
  | writeAttempt (payload : List Nat)
  /-- `self.emit('send-error')` (internal event; its sole listener re-invokes
  the pump). -/
  | sendError
  /-- `setTimeout(..., ms)` arming the acknowledgment timer. -/
  | startTimer (ms : Nat)
deriving Repr, DecidableEq

/-- A JavaScript runtime exception thrown by the embedded code. -/
inductive JsError where
  /-- Evaluating an identifier that is not bound in any enclosing scope. -/
  | referenceError
  /-- Reading a property of `undefined`. -/
  | typeError
deriving Repr, DecidableEq

/-- Per-send acknowledgment options after merging with the defaults
(`options.timeout`, `options.priority`, `options.attempts` in the source). -/
structure AckOptions where
  timeout : Nat
  priority : String
  attempts : Int
deriving Repr, DecidableEq

/-- `self.defaultAcknowledgmentOptions` (src/index.js lines 110-114). -/
def defaultAcknowledgmentOptions : AckOptions :=
  { timeout := 2000, priority := "high", attempts := 10 }

/-- Options as passed by the caller: absent fields fall back to the defaults
via `Object.assign({}, self.defaultAcknowledgmentOptions, options)`. -/
structure UserAckOptions where
  timeout : Option Nat
  priority : Option String
  attempts : Option Int
deriving Repr, DecidableEq

/-- `Object.assign({}, defaults, options)` (src/index.js line 481):
a `none` user options object (`undefined`) is ignored; otherwise each field
present in the user object overrides the default. -/
def assignOptions (defaults : AckOptions) (user : Option UserAckOptions) : AckOptions :=
  match user with
  | none => defaults
  | some u =>
    { timeout := u.timeout.getD defaults.timeout
      priority := u.priority.getD defaults.priority
      attempts := u.attempts.getD defaults.attempts }

/-- An element of `self.messageQueue`: the object
`{message, cb, options, sequenceNumber}` pushed at src/index.js line 497.
`message` already carries the appended sequence byte. -/
structure QMsg where
  message : List Nat
  cbId : Nat
  options : AckOptions
  sequenceNumber : Nat
deriving Repr, DecidableEq

/-- The configuration options of the constructor that the reliability layer
reads (src/index.js lines 40-58). -/
structure Options where
  binary : Bool
  acknowledgment : Bool
  nmea : Bool
  startChar : String
deriving Repr, DecidableEq

/-- The mutable fields of the `Arduino` object used by the acknowledgment
queue: `self.sequenceNumber`, `self.messageQueue`, `self.writing`,
`self.timeout` (modelled as an armed-or-not flag) and `self.fails`
(src/index.js lines 107-121). -/
structure ArduinoState where
  options : Options
  sequenceNumber : Nat
  messageQueue : List QMsg
  writing : Bool
  timeoutActive : Bool
  fails : Nat
deriving Repr, DecidableEq

/-- `self.maxFails` (src/index.js line 121). -/
def maxFails : Nat := 100

/-- A fresh `Arduino` object's queue state (constructor, lines 107-121). -/
def initialState (o : Options) : ArduinoState :=
  { options := o, sequenceNumber := 0, messageQueue := [], writing := false
    timeoutActive := false, fails := 0 }

/-- `_computeChecksum` in binary mode (src/index.js lines 441-461, the
`self.options.binary` branch): XOR-fold of the message bytes. -/
def computeChecksumBinary (message : List Nat) : Nat :=
  message.foldl (fun checksum b => Nat.xor checksum b) 0

/-- XOR-fold of the character codes of a string: the loop of
`_computeChecksum` in text mode (src/index.js lines 444-448, using
`message.charCodeAt(i)`). -/
def charCodesXor (message : String) : Nat :=
  message.data.foldl (fun checksum c => Nat.xor checksum c.toNat) 0

/-- `Number(checksum).toString(16).toUpperCase()` for a natural number
(src/index.js line 453): base-16 digits, most significant first, uppercased. -/
def toHexUpper (n : Nat) : String :=
  String.mk ((Nat.toDigits 16 n).map Char.toUpper)

/-- `s.slice(-2)` / `s.substr(-2)` on a JavaScript string: its last two
characters (the whole string when shorter). -/
def jsSliceLastTwo (s : String) : String :=
  String.mk (s.data.drop (s.data.length - 2))

/-- The hexadecimal rendering of `_computeChecksum` in text mode
(src/index.js lines 450-457): uppercase base-16 digits, left-padded with
`('00' + checksum).slice(-2)` when shorter than two characters. -/
def padTwoUpperHex (checksum : Nat) : String :=
  let hexStr := toHexUpper checksum
  if hexStr.length < 2 then jsSliceLastTwo ("00" ++ hexStr) else hexStr

/-- `_computeChecksum` in text (non-binary) mode (src/index.js lines
441-461). -/
def computeChecksumText (message : String) : String :=
  padTwoUpperHex (charCodesXor message)

/-- The text (non-binary) path of `writeAndDrain` (src/index.js lines
599-614): with `nmea` enabled the payload written to the port is
`'$' + message + '*' + checksum + '\r'` (the start character is the literal
`'$'` at line 612); otherwise the message is written unchanged.  The
`self.options.binary` branch of the same `if` builds a byte payload and is
modelled separately by `writeAndDrainBinary`. -/
def writeAndDrainText (opts : Options) (message : String) : String :=
  if opts.nmea && !opts.binary then
    "$" ++ message ++ "*" ++ computeChecksumText message ++ "\r"
  else message

/-- SLIP byte-stuffing of the external `slip` package used at src/index.js
line 609 (`slip.encode`): the reserved END byte (0xC0) becomes ESC,ESC_END
(0xDB,0xDC), the ESC byte (0xDB) becomes ESC,ESC_ESC (0xDB,0xDD), and a
terminating END byte is appended. -/
def slipEncode (bytes : List Nat) : List Nat :=
  (bytes.flatMap fun b =>
    if b = 192 then [219, 220] else if b = 219 then [219, 221] else [b]) ++ [192]

/-- The binary path of `writeAndDrain` (src/index.js lines 604-610): with
`nmea` enabled the checksum byte is appended and the result is
SLIP-encoded. -/
def writeAndDrainBinary (opts : Options) (message : List Nat) : List Nat :=
  if opts.nmea && opts.binary then
    slipEncode (message ++ [computeChecksumBinary message])
  else message

/-- `_writeAndWaitForAcknowledgementHelper` up to and including the call of
`self.writeAndDrain` (src/index.js lines 513-538): a no-op on an empty
queue; on a head whose `options.attempts` is negative an error is emitted
and pumping halts without dequeuing; a no-op while `self.writing` is set;
otherwise `self.writing` is set and `writeAndDrain` is invoked with the
head's message (the `writeAttempt` event).  The asynchronous outcomes of
that write are the separate transitions `writeCbOk`, `writeCbErr` and
`ackTimeoutFire` below. -/
def pump (s : ArduinoState) : ArduinoState × List Ev :=
  match s.messageQueue with
  | [] => (s, [])
  | m :: _ =>
    if m.options.attempts < 0 then
      (s, [Ev.errorEvent
        "Acknowledgment byte not received after max attempts. Not retrying message"])
    else if s.writing then (s, [])
    else ({ s with writing := true }, [Ev.writeAttempt m.message])

/-- The successful-drain continuation of the write started by `pump`
(src/index.js lines 565-587, the registration of the timer only): arms
`self.timeout = setTimeout(..., options.timeout)` with the options the
helper closed over at pump time. -/
def writeCbOk (closureOptions : AckOptions) (s : ArduinoState) : ArduinoState × List Ev :=
  ({ s with timeoutActive := true }, [Ev.startTimer closureOptions.timeout])

/-- The error branch of the `writeAndDrain` callback inside
`_writeAndWaitForAcknowledgementHelper` (src/index.js lines 538-563).
`closure` is the queue head destructured when the helper ran
(`const {message, cb, options} = self.messageQueue[0]`).  Clears
`self.writing`, increments `self.fails` and wipes the queue when the
counter exceeds `self.maxFails`, clears the timer, then: a low-priority
closure emits a discard error, calls the closed-over callback with an
error and shifts the queue; otherwise the source evaluates
`self.messageQueue[0].options.attempts -= 1`, which throws a TypeError
when the queue is empty (after a wipe) because `self.messageQueue[0]` is
`undefined`.  Finally `self.emit('send-error')` synchronously re-invokes
the pump. -/
def writeCbErr (closure : QMsg) (s : ArduinoState) : Except JsError (ArduinoState × List Ev) :=
  let s1 := { s with writing := false, fails := s.fails + 1 }
  let s2 := if maxFails < s1.fails then { s1 with fails := 0, messageQueue := [] } else s1
  let wipeEvs :=
    if maxFails < s1.fails then [Ev.errorEvent "Arduino write failed 100 times. Wiping buffer!"]
    else []
  let s3 := { s2 with timeoutActive := false }
  if closure.options.priority == "low" then
    let s4 := { s3 with messageQueue := s3.messageQueue.tail }
    let (s5, pumpEvs) := pump s4
    .ok (s5, wipeEvs ++
      [Ev.errorEvent "Arduino write failed. Low priority message discarded",
       Ev.callback closure.cbId (some "error: low priority message discarded"),
       Ev.sendError] ++ pumpEvs)
  else
    match s3.messageQueue with
    | [] => .error .typeError
    | headMsg :: rest =>
      let s4 := { s3 with messageQueue :=
        { headMsg with options := { headMsg.options with attempts := headMsg.options.attempts - 1 } } :: rest }
      let (s5, pumpEvs) := pump s4
      .ok (s5, wipeEvs ++ [Ev.sendError] ++ pumpEvs)

/-- The expiry of the acknowledgment timer armed by `writeCbOk`
(src/index.js lines 565-587): clears `self.writing`, increments
`self.fails` and wipes the queue when the counter exceeds `self.maxFails`;
a low-priority closure emits a discard error, calls the closed-over
callback with an error and shifts the queue; otherwise, if the queue still
has a head (`else if (self.messageQueue[0])`), the head's
`options.attempts` is decremented in place.  `self.emit('send-error')`
then synchronously re-invokes the pump. -/
def ackTimeoutFire (closure : QMsg) (s : ArduinoState) : ArduinoState × List Ev :=
  let s1 := { s with writing := false, fails := s.fails + 1 }
  let s2 := if maxFails < s1.fails then { s1 with fails := 0, messageQueue := [] } else s1
  let wipeEvs :=
    if maxFails < s1.fails then [Ev.errorEvent "Arduino write failed 100 times. Wiping buffer!"]
    else []
  if closure.options.priority == "low" then
    let s3 := { s2 with messageQueue := s2.messageQueue.tail }
    let (s4, pumpEvs) := pump s3
    (s4, wipeEvs ++
      [Ev.errorEvent "Acknowledgment byte not received. Low priority message discarded",
       Ev.callback closure.cbId (some "error: low priority message discarded"),
       Ev.sendError] ++ pumpEvs)
  else
    let s3 :=
      match s2.messageQueue with
      | [] => s2
      | headMsg :: rest => { s2 with messageQueue :=
          { headMsg with options := { headMsg.options with attempts := headMsg.options.attempts - 1 } } :: rest }
    let (s4, pumpEvs) := pump s3
    (s4, wipeEvs ++ [Ev.sendError] ++ pumpEvs)

/-- `writeAndWaitForAcknowledgement` (src/index.js lines 474-499).  In
non-binary mode the callback receives an error string immediately.  The
user options are merged over the defaults.  If the queue is non-empty and
the merged priority is `'low'`, an error is emitted, **the queue head is
shifted off** (`self.messageQueue.shift()` at line 489), the new message's
callback is invoked with no error, and the function returns without
writing.  Otherwise the pre-existing `self.sequenceNumber` is appended to
the message as one byte (`new Buffer([sequenceNumber])` truncates to
`mod 256`), the object is pushed, `self.sequenceNumber` is set to the
value returned by `push` (the new queue length), and the helper (`pump`)
runs. -/
def writeAndWaitForAcknowledgement (s : ArduinoState) (message : List Nat) (cbId : Nat)
    (userOpts : Option UserAckOptions) : ArduinoState × List Ev :=
  if !s.options.binary then
    (s, [Ev.callback cbId
      (some "Non-binary mode not currently supported for writeAndWaitForAcknowledgment function")])
  else
    let options := assignOptions defaultAcknowledgmentOptions userOpts
    if 0 < s.messageQueue.length ∧ options.priority = "low" then
      ({ s with messageQueue := s.messageQueue.tail },
       [Ev.errorEvent
          "Acknowledgment byte not yet received for previous message. Low priority message discarded",
        Ev.callback cbId none])
    else
      let sequenceNumber := s.sequenceNumber
      let wireMessage := message ++ [sequenceNumber % 256]
      let newQueue := s.messageQueue ++
        [{ message := wireMessage, cbId := cbId, options := options, sequenceNumber := sequenceNumber }]
      let s1 := { s with messageQueue := newQueue, sequenceNumber := newQueue.length }
      let (s2, pumpEvs) := pump s1
      (s2, pumpEvs)

/-- The integrity stage of `_parseBinaryMessage` (src/index.js lines
186-204): with `nmea` enabled the trailing byte (`message[message.length - 1]`,
`undefined` on an empty message) is compared against the XOR of the
remaining bytes; on mismatch the message is dropped with a checksum error
(`none`), otherwise the stripped message continues; with `nmea` disabled
the message continues unchanged. -/
def decodedInbound (s : ArduinoState) (message : List Nat) : Option (List Nat) :=
  if s.options.nmea then
    let stripped := message.dropLast
    if message.getLast? = some (computeChecksumBinary stripped) then some stripped else none
  else some message

/-- The dispatch stage of `_parseBinaryMessage` (src/index.js lines
206-221) on the decoded message: with acknowledgment enabled, a one-byte
message equal to the queue head's `sequenceNumber` clears the timer,
shifts the head off, resets `self.fails`, clears `self.writing`, invokes
the head's callback with no arguments and re-invokes the helper (`pump`);
every other message is emitted as `'data'`. -/
def parseBinaryMessageCont (s : ArduinoState) (message : List Nat) : ArduinoState × List Ev :=
  match s.options.acknowledgment, s.messageQueue, message with
  | true, headMsg :: rest, [b] =>
    if b == headMsg.sequenceNumber then
      let s1 := { s with timeoutActive := false, messageQueue := rest, fails := 0, writing := false }
      let (s2, pumpEvs) := pump s1
      (s2, Ev.callback headMsg.cbId none :: pumpEvs)
    else (s, [Ev.dataEvent message])
  | _, _, _ => (s, [Ev.dataEvent message])

/-- `_parseBinaryMessage` (src/index.js lines 184-222): the integrity stage
followed by the acknowledgment dispatch.  On a checksum mismatch a
`'Binary Checksum error'` is emitted and the state is unchanged. -/
def parseBinaryMessage (s : ArduinoState) (message : List Nat) : ArduinoState × List Ev :=
  match decodedInbound s message with
  | none => (s, [Ev.errorEvent "Binary Checksum error"])
  | some decoded => parseBinaryMessageCont s decoded

/-- `message[i]` on a JavaScript string: the character at index `i`, or
`undefined` (`none`) past the end. -/
def jsCharAt (s : String) (i : Nat) : Option Char :=
  s.data.get? i

/-- `String.prototype.substring(start, stop)`: negative bounds clamp to 0,
bounds above the length clamp to the length, and the two bounds are swapped
when `start > stop`. -/
def jsSubstring (s : String) (start stop : Int) : String :=
  let len : Int := s.length
  let clamp : Int → Nat := fun i => (max 0 (min i len)).toNat
  let a := clamp start
  let b := clamp stop
  let lo := min a b
  let hi := max a b
  String.mk ((s.data.drop lo).take (hi - lo))

/-- `_parseStringMessage` (src/index.js lines 160-182), the handler for
every inbound line in text (non-binary) mode (wired at lines 254-258).
Unlike every other method of the object, its body reads the identifier
`self` without binding `var self = this`, and no enclosing scope of this
module-level function declares `self`; `selfBinding` models the value bound
to `self` in the scope chain (`none` when the identifier is unbound, as in
the source, in which case evaluating `self.options.nmea` on the first line
throws a ReferenceError before anything can be emitted).  Were `self`
bound, the body checks `message[0] === '$'` (the literal `'$'`), takes
`message.trim().substr(-2)` as the received checksum, strips the frame with
`message.substring(1, message.length - 4)`, and either emits a checksum
error or the `'data'` event. -/
def parseStringMessage (selfBinding : Option ArduinoState) (message : String) :
    Except JsError (List Ev) :=
  match selfBinding with
  | none => .error .referenceError
  | some self =>
    if self.options.nmea && jsCharAt message 0 == some '$' then
      let checksum := jsSliceLastTwo message.trim
      let stripped := jsSubstring message 1 ((message.length : Int) - 4)
      let computedChecksum := computeChecksumText stripped
      if checksum ≠ computedChecksum then
        .ok [Ev.errorEvent "Checksum error"]
      else
        .ok [Ev.dataStr stripped]
    else
      .ok [Ev.dataStr message]

/-- The spec's rendering of a byte as two uppercase zero-padded hexadecimal
digits (stated from the spec's wording, for comparison with the source's
`padTwoUpperHex`). -/
def hexDigitUppercase (n : Nat) : Char :=
  if n < 10 then Char.ofNat (48 + n) else Char.ofNat (55 + n)

/-- `twoHexDigitsUppercase(n)` as the spec words it: most significant
nybble first. -/
def twoHexDigitsUppercase (n : Nat) : String :=
  String.mk [hexDigitUppercase (n / 16), hexDigitUppercase (n % 16)]

/-- Number of `writeAttempt` events (calls to `writeAndDrain`) in an event
list. -/
def countWriteAttempts (evs : List Ev) : Nat :=
  evs.countP fun e => match e with | Ev.writeAttempt _ => true | _ => false

/-- Number of `'error'` emissions in an event list (`send-error` is a
distinct event name and is not counted). -/
def countErrorEvents (evs : List Ev) : Nat :=
  evs.countP fun e => match e with | Ev.errorEvent _ => true | _ => false

/-- Whether any user callback is invoked in an event list. -/
def hasCallbackEvent (evs : List Ev) : Bool :=
  evs.any fun e => match e with | Ev.callback _ _ => true | _ => false

/-- Sequential composition of transitions, accumulating events. -/
def andThen (p : ArduinoState × List Ev) (f : ArduinoState → ArduinoState × List Ev) :
    ArduinoState × List Ev :=
  let (s2, e2) := f p.1
  (s2, p.2 ++ e2)

/-- One failed delivery cycle for the current in-flight head when no
acknowledgment ever arrives: the write drains successfully (`writeCbOk`
arms the timer with the options the helper closed over, i.e. the head's)
and the timer then expires (`ackTimeoutFire`). -/
def noAckRound (s : ArduinoState) : ArduinoState × List Ev :=
  match s.messageQueue with
  | [] => (s, [])
  | headMsg :: _ =>
    andThen (writeCbOk headMsg.options s) (ackTimeoutFire headMsg)

/-- Caller options selecting `'high'` priority explicitly and leaving the
other fields to their defaults. -/
def highUserOpts : UserAckOptions :=
  { timeout := none, priority := some "high", attempts := none }

/-- A run of consecutive `writeAndWaitForAcknowledgement` calls with
explicit high priority and otherwise default options, one per body. -/
def enqueueRun (s : ArduinoState) : List (List Nat) → ArduinoState
  | [] => s
  | b :: rest =>
    enqueueRun (writeAndWaitForAcknowledgement s b 0 (some highUserOpts)).1 rest

/-- A binary-mode configuration with acknowledgments and without checksums,
as a concrete test configuration. -/
def opts0 : Options :=
  { binary := true, acknowledgment := true, nmea := false, startChar := "$" }

/-- A text-mode configuration with NMEA checksums and the default start
character. -/
def textOpts : Options :=
  { binary := false, acknowledgment := false, nmea := true, startChar := "$" }

/-- A text-mode configuration with NMEA checksums and `startChar`
configured to `'#'`. -/
def hashStartOpts : Options :=
  { binary := false, acknowledgment := false, nmea := true, startChar := "#" }

/-- Scenario: one message enqueued into a fresh binary+acknowledgment
session (it is assigned sequence number 0 and the counter becomes 1). -/
def c1AfterFirst : ArduinoState :=
  (writeAndWaitForAcknowledgement (initialState opts0) [1] 0 none).1

/-- Scenario continued: the acknowledgment byte 0 arrives, the message is
dequeued and the queue drains to empty (the counter stays 1). -/
def c1AfterAck : ArduinoState := (parseBinaryMessage c1AfterFirst [0]).1

/-- Scenario continued: a second message is enqueued after the drain. -/
def c1AfterSecond : ArduinoState := (writeAndWaitForAcknowledgement c1AfterAck [2] 1 none).1

/-- Scenario continued: a third message is enqueued immediately after the
second. -/
def c1AfterThird : ArduinoState := (writeAndWaitForAcknowledgement c1AfterSecond [3] 2 none).1

/-- Scenario: two messages enqueued into a fresh session (sequence numbers
0 and 1; the counter becomes 2). -/
def c9AfterTwoEnqueues : ArduinoState :=
  (writeAndWaitForAcknowledgement
    (writeAndWaitForAcknowledgement (initialState opts0) [1] 0 none).1 [2] 1 none).1

/-- Scenario continued: both acknowledgments arrive, the queue drains by
two (the counter stays 2). -/
def c9AfterTwoAcks : ArduinoState :=
  (parseBinaryMessage (parseBinaryMessage c9AfterTwoEnqueues [0]).1 [1]).1

/-- Scenario continued: a third message is enqueued into the now-empty
queue. -/
def c9AfterThirdEnqueue : ArduinoState :=
  (writeAndWaitForAcknowledgement c9AfterTwoAcks [3] 2 none).1

/-- A pending high-priority message sitting at the head of the queue,
already in flight. -/
def c2PendingHead : QMsg :=
  { message := [1, 0], cbId := 0,
    options := { timeout := 2000, priority := "high", attempts := 10 }, sequenceNumber := 0 }

/-- A session whose queue holds `c2PendingHead`, with a write in flight and
the acknowledgment timer armed. -/
def c2State : ArduinoState :=
  { options := opts0, sequenceNumber := 1, messageQueue := [c2PendingHead],
    writing := true, timeoutActive := true, fails := 0 }

/-- Scenario: a fresh session enqueues one high-priority message with
`attempts = 2` and no acknowledgment ever arrives; each `noAckRound` is one
successful drain followed by a timer expiry. -/
def c4Trace : ArduinoState × List Ev :=
  andThen (andThen (andThen (writeAndWaitForAcknowledgement (initialState opts0) [7] 0
    (some { timeout := none, priority := some "high", attempts := some 2 })) noAckRound)
    noAckRound) noAckRound

/-- A pending low-priority message at the head of the queue. -/
def c5LowHead : QMsg :=
  { message := [9, 0], cbId := 0,
    options := { timeout := 2000, priority := "low", attempts := 10 }, sequenceNumber := 0 }

/-- A session with `c5LowHead` in flight and the consecutive-failure
counter standing exactly at the ceiling (`fails = maxFails = 100`), so the
next failure trips the circuit breaker.  (Reachable: e.g. 99 timeouts of an
earlier high-priority message followed by two discarded low-priority
sends.) -/
def c5StateAtCeiling : ArduinoState :=
  { options := opts0, sequenceNumber := 1, messageQueue := [c5LowHead],
    writing := true, timeoutActive := true, fails := 100 }

/-- A pending high-priority message at the head of the queue. -/
def c5HighHead : QMsg :=
  { message := [9, 0], cbId := 0,
    options := { timeout := 2000, priority := "high", attempts := 10 }, sequenceNumber := 0 }

/-- A session with `c5HighHead` in flight and the consecutive-failure
counter at the ceiling. -/
def c5HighStateAtCeiling : ArduinoState :=
  { options := opts0, sequenceNumber := 1, messageQueue := [c5HighHead],
    writing := true, timeoutActive := true, fails := 100 }

/-- A queued message with sequence number 5 awaiting acknowledgment. -/
def c3HeadMsg : QMsg :=
  { message := [7, 5], cbId := 3,
    options := { timeout := 2000, priority := "high", attempts := 10 }, sequenceNumber := 5 }

/-- A session with `c3HeadMsg` in flight, a non-zero failure counter and
the timer armed. -/
def c3State : ArduinoState :=
  { options := opts0, sequenceNumber := 1, messageQueue := [c3HeadMsg],
    writing := true, timeoutActive := true, fails := 2 }

/-- The pump never changes the configuration options. -/
lemma pump_options (s : ArduinoState) : (pump s).1.options = s.options := by
  unfold pump
  cases h : s.messageQueue with
  | nil => rfl
  | cons m rest =>
    by_cases h1 : m.options.attempts < 0
    · simp [h1]
    · by_cases h2 : s.writing <;> simp [h1, h2]

/-- The pump never changes the queue: it only starts a write or halts. -/
lemma pump_messageQueue (s : ArduinoState) : (pump s).1.messageQueue = s.messageQueue := by
  unfold pump
  cases h : s.messageQueue with
  | nil => exact h
  | cons m rest =>
    by_cases h1 : m.options.attempts < 0
    · simp [h1, h]
    · by_cases h2 : s.writing <;> simp [h1, h2, h]

/-- The pump never changes the sequence counter. -/
lemma pump_sequenceNumber (s : ArduinoState) : (pump s).1.sequenceNumber = s.sequenceNumber := by
  unfold pump
  cases h : s.messageQueue with
  | nil => rfl
  | cons m rest =>
    by_cases h1 : m.options.attempts < 0
    · simp [h1]
    · by_cases h2 : s.writing <;> simp [h1, h2]

/-- Effect of one explicitly high-priority enqueue in binary mode on the
queue and the counter: the message is appended carrying the pre-existing
counter as its sequence number, and the counter becomes the queue length
returned by `push`. -/
lemma enqueue_high_step (s : ArduinoState) (b : List Nat) (c : Nat)
    (hbin : s.options.binary = true) :
    (writeAndWaitForAcknowledgement s b c (some highUserOpts)).1.options = s.options
    ∧ (writeAndWaitForAcknowledgement s b c (some highUserOpts)).1.messageQueue
       = s.messageQueue ++
         [{ message := b ++ [s.sequenceNumber % 256], cbId := c,
            options := { timeout := 2000, priority := "high", attempts := 10 },
            sequenceNumber := s.sequenceNumber }]
    ∧ (writeAndWaitForAcknowledgement s b c (some highUserOpts)).1.sequenceNumber
       = s.messageQueue.length + 1 := by
  have hmerge : assignOptions defaultAcknowledgmentOptions (some highUserOpts)
      = { timeout := 2000, priority := "high", attempts := 10 } := rfl
  unfold writeAndWaitForAcknowledgement
  rw [hbin]
  simp only [Bool.not_true, Bool.false_eq_true, if_false, hmerge]
  rw [if_neg (by simp)]
  refine ⟨?_, ?_, ?_⟩
  · rw [pump_options]
  · rw [pump_messageQueue]
  · rw [pump_sequenceNumber]
    simp

/-- Unfolding lemma for `List.range'`. -/
lemma range'_cons (a n : Nat) : List.range' a (n + 1) = a :: List.range' (a + 1) n := rfl

set_option maxRecDepth 4096 in
/-- For byte-range inputs the source's hexadecimal rendering agrees with
the two-uppercase-digit rendering the spec describes. -/
lemma padTwoUpperHex_eq (i : Fin 256) : padTwoUpperHex i.val = twoHexDigitsUppercase i.val := by
  revert i
  decide

/-- XOR of two bytes is a byte. -/
lemma xor_lt_256 {a b : Nat} (ha : a < 256) (hb : b < 256) : Nat.xor a b < 256 := by
  have h : (256 : Nat) = 2 ^ 8 := rfl
  rw [h] at ha hb ⊢
  exact Nat.xor_lt_two_pow ha hb

/-- The XOR fold of byte-range character codes stays in byte range. -/
lemma xorFoldl_lt (l : List Char) (h : ∀ c ∈ l, c.toNat < 256) :
    ∀ acc, acc < 256 → l.foldl (fun a c => Nat.xor a c.toNat) acc < 256 := by
  induction l with
  | nil => intro acc hacc; simpa using hacc
  | cons c cs ih =>
    intro acc hacc
    simp only [List.foldl_cons]
    exact ih (fun d hd => h d (List.mem_cons_of_mem c hd))
      (Nat.xor acc c.toNat) (xor_lt_256 hacc (h c (List.mem_cons_self c cs)))

/-- The text-mode checksum value is a byte whenever every character code of
the body is a byte. -/
lemma charCodesXor_lt (body : String) (h : ∀ c ∈ body.data, c.toNat < 256) :
    charCodesXor body < 256 :=
  xorFoldl_lt body.data h 0 (by omega)

/-- C1 (counterexample): the claim that every enqueue assigns
`(previous value + 1) mod 256` regardless of how the queue drains fails on
the code.  In the concrete run enqueue, acknowledge, enqueue, enqueue, the
second and third surviving messages are both assigned sequence number 1
(the claim requires 1 then 2), because `self.sequenceNumber` is set to the
queue length returned by `push`, which falls back after a drain. -/
theorem c1_counterexample_sequence_repeats :
    (c1AfterThird.messageQueue.map fun m => m.sequenceNumber) = [1, 1]
    ∧ ¬(c1AfterThird.messageQueue.map fun m => m.sequenceNumber) = [1, 2]
    ∧ c1AfterThird.sequenceNumber = 2 := by
  decide

/-- C1 (amended): starting from any binary-mode state in which the counter
equals the queue length (true initially and after any enqueue, and broken
only by dequeues), a run of N consecutive high-priority enqueues assigns
the sequence numbers `start, start+1, ..., start+N-1` with no modular
reduction, and leaves the counter at `start + N`; in particular after 256
enqueues the counter is `start + 256`, not `start` — there is no mod-256
wraparound. -/
theorem c1_amended_run_increment (s : ArduinoState) (bodies : List (List Nat))
    (hbin : s.options.binary = true)
    (hsync : s.sequenceNumber = s.messageQueue.length) :
    (enqueueRun s bodies).messageQueue.map (fun m => m.sequenceNumber)
      = s.messageQueue.map (fun m => m.sequenceNumber)
        ++ List.range' s.sequenceNumber bodies.length
    ∧ (enqueueRun s bodies).sequenceNumber = s.sequenceNumber + bodies.length := by
  induction bodies generalizing s with
  | nil => simp [enqueueRun]
  | cons b rest ih =>
    obtain ⟨ho, hq, hn⟩ := enqueue_high_step s b 0 hbin
    set s1 := (writeAndWaitForAcknowledgement s b 0 (some highUserOpts)).1 with hs1
    have hbin1 : s1.options.binary = true := by rw [ho]; exact hbin
    have hsync1 : s1.sequenceNumber = s1.messageQueue.length := by
      rw [hn, hq]; simp
    obtain ⟨ih1, ih2⟩ := ih s1 hbin1 hsync1
    have hseq1 : s1.sequenceNumber = s.sequenceNumber + 1 := by
      rw [hn, hsync]
    constructor
    · show (enqueueRun s1 rest).messageQueue.map (fun m => m.sequenceNumber) = _
      rw [ih1, hq]
      simp only [List.map_append, List.map_cons, List.map_nil, List.length_cons, hseq1]
      rw [List.append_assoc]
      rw [range'_cons]
      rfl
    · show (enqueueRun s1 rest).sequenceNumber = _
      rw [ih2, hseq1]
      simp only [List.length_cons]
      omega

/-- C1 (witness): the amended run-increment theorem applied to a fresh
session and three enqueues, which are assigned 0, 1, 2 and leave the
counter at 3. -/
theorem c1_amended_run_increment_witness :
    ((initialState opts0).options.binary = true
     ∧ (initialState opts0).sequenceNumber = (initialState opts0).messageQueue.length)
    ∧ (enqueueRun (initialState opts0) [[1], [2], [3]]).messageQueue.map
        (fun m => m.sequenceNumber)
      = (initialState opts0).messageQueue.map (fun m => m.sequenceNumber)
        ++ List.range' (initialState opts0).sequenceNumber 3
    ∧ (enqueueRun (initialState opts0) [[1], [2], [3]]).sequenceNumber
      = (initialState opts0).sequenceNumber + 3 :=
  ⟨⟨rfl, rfl⟩, c1_amended_run_increment (initialState opts0) [[1], [2], [3]] rfl rfl⟩

/-- C2: calling `writeAndWaitForAcknowledgement` with priority low while
the queue is non-empty does emit the discard notification, invoke the new
message's callback with no error, attempt no write and never append the
new message — but it does NOT leave the queue unchanged: the
`self.messageQueue.shift()` at src/index.js line 489 removes the pending
in-flight head, so the resulting queue is empty rather than still holding
`c2PendingHead`.  This contradicts the claim (and the README's rule that a
message is dequeued only on acknowledgment or attempt exhaustion). -/
theorem c2_low_priority_discard_removes_head :
    writeAndWaitForAcknowledgement c2State [9] 1
        (some { timeout := none, priority := some "low", attempts := none })
      = ({ c2State with messageQueue := [] },
         [Ev.errorEvent
            "Acknowledgment byte not yet received for previous message. Low priority message discarded",
          Ev.callback 1 none])
    ∧ ([] : List QMsg) ≠ [c2PendingHead] := by
  constructor
  · decide
  · decide

/-- C3: in binary mode with acknowledgment enabled, an inbound decoded
one-byte message equal to the head's sequence number clears the timer,
dequeues the head, resets the failure counter, clears the in-flight flag,
invokes the head's callback with no error and immediately re-invokes the
pump; every decoded message not matching this pattern (a one-byte
non-match, or any message of another length) is surfaced via the `data`
event with the state unchanged. -/
theorem c3_ack_dispatch (s : ArduinoState) (headMsg : QMsg) (rest : List QMsg) (m dm : List Nat)
    ( _hbin : s.options.binary = true)
    (hack : s.options.acknowledgment = true)
    (hq : s.messageQueue = headMsg :: rest)
    (hdec : decodedInbound s m = some dm) :
    (dm = [headMsg.sequenceNumber] →
      parseBinaryMessage s m =
        ((pump { s with timeoutActive := false, messageQueue := rest,
                        fails := 0, writing := false }).1,
         Ev.callback headMsg.cbId none ::
           (pump { s with timeoutActive := false, messageQueue := rest,
                          fails := 0, writing := false }).2))
    ∧ (∀ ackByte : Nat, dm = [ackByte] → ackByte ≠ headMsg.sequenceNumber →
        parseBinaryMessage s m = (s, [Ev.dataEvent dm]))
    ∧ (dm.length ≠ 1 → parseBinaryMessage s m = (s, [Ev.dataEvent dm])) := by
  unfold parseBinaryMessage
  rw [hdec]
  refine ⟨?_, ?_, ?_⟩
  · intro hmatch
    subst hmatch
    unfold parseBinaryMessageCont
    rw [hack, hq]
    simp
  · intro ackByte hdm hne
    subst hdm
    unfold parseBinaryMessageCont
    rw [hack, hq]
    simp [hne]
  · intro hlen
    unfold parseBinaryMessageCont
    rw [hack, hq]
    cases dm with
    | nil => simp
    | cons x xs =>
      cases xs with
      | nil => simp at hlen
      | cons y ys => simp

/-- C3 (witness): the dispatch theorem at a concrete session whose head
has sequence number 5: the inbound byte 5 acknowledges it (queue emptied,
fails reset, flags cleared, callback 3 invoked with no error, pump finds
an empty queue), while the inbound byte 6 is surfaced as data. -/
theorem c3_ack_dispatch_witness :
    (c3State.options.binary = true ∧ c3State.options.acknowledgment = true
     ∧ c3State.messageQueue = c3HeadMsg :: [] ∧ decodedInbound c3State [5] = some [5])
    ∧ parseBinaryMessage c3State [5]
        = ({ c3State with timeoutActive := false, messageQueue := [],
                          fails := 0, writing := false },
           [Ev.callback 3 none])
    ∧ parseBinaryMessage c3State [6] = (c3State, [Ev.dataEvent [6]]) :=
  ⟨⟨rfl, rfl, rfl, rfl⟩,
   ((c3_ack_dispatch c3State c3HeadMsg [] [5] [5] rfl rfl rfl rfl).1 rfl).trans (by decide),
   (c3_ack_dispatch c3State c3HeadMsg [] [6] [6] rfl rfl rfl rfl).2.1 6 rfl (by decide)⟩

/-- C4: a high-priority message enqueued with `attempts = 2` that never
receives an acknowledgment triggers exactly 3 write attempts (the initial
one plus 2 retries); afterwards the exhausted message (attempts now -1)
is still at the queue head, the in-flight flag is clear, and invoking the
pump again emits the max-attempts error and changes nothing — pumping has
halted without dequeuing. -/
theorem c4_exhausted_after_three_writes :
    countWriteAttempts c4Trace.2 = 3
    ∧ (c4Trace.1.messageQueue.map fun m => m.options.attempts) = [-1]
    ∧ (c4Trace.1.messageQueue.map fun m => m.sequenceNumber) = [0]
    ∧ c4Trace.1.writing = false
    ∧ pump c4Trace.1
        = (c4Trace.1,
           [Ev.errorEvent
              "Acknowledgment byte not received after max attempts. Not retrying message"]) := by
  decide

/-- C5 (counterexample): the claim that a ceiling-tripping failure wipes
the queue with a single error signal and no individual callbacks fails on
the code.  With a low-priority head in flight and the failure counter at
the ceiling, the expiring timer wipes the queue and resets the counter,
but then also emits a second error (the low-priority discard) and invokes
the just-wiped head's callback. -/
theorem c5_counterexample_wipe_invokes_callback :
    (ackTimeoutFire c5LowHead c5StateAtCeiling).1.messageQueue = []
    ∧ (ackTimeoutFire c5LowHead c5StateAtCeiling).1.fails = 0
    ∧ countErrorEvents (ackTimeoutFire c5LowHead c5StateAtCeiling).2 = 2
    ∧ hasCallbackEvent (ackTimeoutFire c5LowHead c5StateAtCeiling).2 = true := by
  decide

/-- C5 (amended): when the consecutive-failure counter exceeds the ceiling
on an acknowledgment timeout and the head in flight is high-priority, the
entire queue is wiped in one step, the counter resets to zero, and exactly
one error event (plus the internal send-error event) is produced with no
individual callback for any wiped message.  When the trigger is a write
error instead, the wipe also happens but the handler then throws a
TypeError evaluating `self.messageQueue[0].options` on the emptied queue
(and with a low-priority head the counterexample above applies). -/
theorem c5_amended_wipe_on_timeout_high_head (closure : QMsg) (s : ArduinoState)
    (hfails : maxFails ≤ s.fails)
    (hpri : closure.options.priority = "high") :
    ackTimeoutFire closure s =
      ({ s with writing := false, fails := 0, messageQueue := [] },
       [Ev.errorEvent "Arduino write failed 100 times. Wiping buffer!", Ev.sendError])
    ∧ writeCbErr closure s = .error .typeError := by
  have hgt : maxFails < s.fails + 1 := by omega
  have hlow : (closure.options.priority == "low") = false := by
    rw [hpri]; rfl
  constructor
  · unfold ackTimeoutFire
    simp only [if_pos hgt, hlow, Bool.false_eq_true, if_false]
    simp [pump]
  · unfold writeCbErr
    simp only [if_pos hgt, hlow, Bool.false_eq_true, if_false]

/-- C5 (witness): the amended theorem applied to a concrete session with a
high-priority head and the failure counter at the ceiling. -/
theorem c5_amended_wipe_on_timeout_high_head_witness :
    (maxFails ≤ c5HighStateAtCeiling.fails ∧ c5HighHead.options.priority = "high")
    ∧ ackTimeoutFire c5HighHead c5HighStateAtCeiling
        = ({ c5HighStateAtCeiling with writing := false, fails := 0, messageQueue := [] },
           [Ev.errorEvent "Arduino write failed 100 times. Wiping buffer!", Ev.sendError])
    ∧ writeCbErr c5HighHead c5HighStateAtCeiling = .error .typeError :=
  ⟨⟨by decide, rfl⟩,
   c5_amended_wipe_on_timeout_high_head c5HighHead c5HighStateAtCeiling (by decide) rfl⟩

/-- C6: the claim (and the source's own doc comments and README) say the
default acknowledgment timeout is 200 ms, but `defaultAcknowledgmentOptions`
sets 2000 ms: a call with no `options.timeout` stores a message whose
applied timeout is 2000, not 200. -/
theorem c6_default_timeout_is_2000 :
    (assignOptions defaultAcknowledgmentOptions none).timeout = 2000
    ∧ ((writeAndWaitForAcknowledgement (initialState opts0) [7] 0 none).1.messageQueue.map
        fun m => m.options.timeout) = [2000]
    ∧ (2000 : Nat) ≠ 200 := by
  decide

/-- C7: in text mode with checksum enabled, `writeAndDrain` of any body of
byte-range characters writes exactly `'$' + body + '*'` followed by the
XOR of the body's character codes rendered as two uppercase zero-padded
hexadecimal digits and `'\r'`; in particular the body `AB` produces
exactly `$AB*03` followed by a carriage return. -/
theorem c7_text_frame_format (opts : Options)
    (hnmea : opts.nmea = true) (hbin : opts.binary = false) :
    (∀ body : String, (∀ c ∈ body.data, c.toNat < 256) →
      writeAndDrainText opts body
        = "$" ++ body ++ "*" ++ twoHexDigitsUppercase (charCodesXor body) ++ "\r")
    ∧ writeAndDrainText opts "AB" = "$AB*03\r" := by
  have hif : (opts.nmea && !opts.binary) = true := by rw [hnmea, hbin]; rfl
  constructor
  · intro body hcodes
    unfold writeAndDrainText
    rw [hif]
    simp only [if_true]
    have hlt : charCodesXor body < 256 := charCodesXor_lt body hcodes
    have hpad := padTwoUpperHex_eq ⟨charCodesXor body, hlt⟩
    simp only [computeChecksumText]
    rw [hpad]
  · unfold writeAndDrainText
    rw [hif]
    simp only [if_true]
    decide

/-- C7 (witness): the frame-format theorem at the concrete text-mode
configuration, on the body `AB`. -/
theorem c7_text_frame_format_witness :
    (textOpts.nmea = true ∧ textOpts.binary = false)
    ∧ writeAndDrainText textOpts "AB" = "$AB*03\r" :=
  ⟨⟨rfl, rfl⟩, (c7_text_frame_format textOpts rfl rfl).2⟩

/-- C8: the claim that text-mode frames begin with the configured
`startChar` fails on the code: the option is stored but never read.  With
`startChar` configured to `'#'`, the frame written for body `A` still
begins with the literal `'$'` (src/index.js line 612 hardcodes it), and
the framing output is entirely independent of the configured start
character. -/
theorem c8_startchar_option_ignored :
    hashStartOpts.startChar = "#"
    ∧ writeAndDrainText hashStartOpts "A" = "$A*41\r"
    ∧ jsCharAt (writeAndDrainText hashStartOpts "A") 0 = some '$'
    ∧ ('$' : Char) ≠ '#'
    ∧ (∀ (o : Options) (sc : String) (msg : String),
        writeAndDrainText { o with startChar := sc } msg = writeAndDrainText o msg) := by
  refine ⟨rfl, by decide, by decide, by decide, ?_⟩
  intro o sc msg
  cases o
  rfl

/-- C9 (counterexample): the claim that the sequence number a message
receives equals the queue length at the moment it was enqueued fails on
the code.  After two enqueues and two acknowledgments the queue is empty
but the counter is stale at 2, so the next message is assigned sequence
number 2 although the queue length at its enqueue is 0 before the push and
1 after it. -/
theorem c9_counterexample_stale_counter :
    c9AfterTwoAcks.messageQueue.length = 0
    ∧ (c9AfterThirdEnqueue.messageQueue.map fun m => m.sequenceNumber) = [2]
    ∧ c9AfterThirdEnqueue.messageQueue.length = 1
    ∧ (2 : Nat) ≠ 0 ∧ (2 : Nat) ≠ 1 := by
  decide

/-- C9 (amended): after every enqueue that is not discarded, the stored
counter equals the current queue length (the value returned by the array
push), and the newly appended message's sequence number is the counter's
prior value — i.e. the queue length immediately after the previous
non-discarded enqueue (0 for a fresh session), not an independently
incremented mod-256 counter and not in general the queue length at its own
enqueue. -/
theorem c9_amended_counter_equals_length (s : ArduinoState) (b : List Nat) (cbId : Nat)
    (uo : Option UserAckOptions)
    (hbin : s.options.binary = true)
    (hnd : ¬(0 < s.messageQueue.length
             ∧ (assignOptions defaultAcknowledgmentOptions uo).priority = "low")) :
    (writeAndWaitForAcknowledgement s b cbId uo).1.sequenceNumber
      = (writeAndWaitForAcknowledgement s b cbId uo).1.messageQueue.length
    ∧ (writeAndWaitForAcknowledgement s b cbId uo).1.messageQueue.map (fun m => m.sequenceNumber)
      = s.messageQueue.map (fun m => m.sequenceNumber) ++ [s.sequenceNumber] := by
  unfold writeAndWaitForAcknowledgement
  rw [hbin]
  simp only [Bool.not_true, Bool.false_eq_true, if_false]
  rw [if_neg hnd]
  constructor
  · rw [pump_sequenceNumber, pump_messageQueue]
  · rw [pump_messageQueue]
    simp

/-- C9 (witness): the amended counter-equals-length theorem applied to a
fresh session and one default-options enqueue. -/
theorem c9_amended_counter_equals_length_witness :
    ((initialState opts0).options.binary = true
     ∧ ¬(0 < (initialState opts0).messageQueue.length
         ∧ (assignOptions defaultAcknowledgmentOptions none).priority = "low"))
    ∧ (writeAndWaitForAcknowledgement (initialState opts0) [4] 0 none).1.sequenceNumber
        = (writeAndWaitForAcknowledgement (initialState opts0) [4] 0 none).1.messageQueue.length
    ∧ (writeAndWaitForAcknowledgement (initialState opts0) [4] 0 none).1.messageQueue.map
        (fun m => m.sequenceNumber)
      = (initialState opts0).messageQueue.map (fun m => m.sequenceNumber)
        ++ [(initialState opts0).sequenceNumber] :=
  ⟨⟨rfl, by decide⟩,
   c9_amended_counter_equals_length (initialState opts0) [4] 0 none rfl (by decide)⟩

/-- C10: every inbound text-mode line routed to `_parseStringMessage`
throws a ReferenceError, because the function reads `self` without any
binding for it in scope; consequently no `data` event and no checksum
`error` event is ever produced by the text-mode parser, for any inbound
message. -/
theorem c10_parse_string_message_reference_error (message : String) :
    parseStringMessage none message = .error .referenceError
    ∧ ∀ evs : List Ev, parseStringMessage none message ≠ .ok evs :=
  ⟨rfl, fun _ h => Except.noConfusion h⟩
